import Mathlib

/-!
Shallow embedding of the `pontourbano` backend (route handlers of
`src/backend/server.js`, `src/unnamed/part_000`, `src/unnamed/part_001`).

The handlers are Express route functions over a SQL store.  We embed them as
pure functions from an explicit database / disk / remote-image-host state and
a request value to a response and a new state.  JavaScript's loose request
values (a body field may be absent, `null`, a string or a number) are embedded
as `JVal`; JSON response bodies as the inductive `Json`.

SQL semantics used by the handlers is embedded directly: `SELECT ... WHERE
email = ?` is a list lookup, `ORDER BY created_at DESC` is a sort by the
`created_at` column, `SERIAL` ids and `CURRENT_TIMESTAMP` are modelled by
monotone counters carried in the state, and the `NOT NULL` constraint on
`usuarios.nome` makes the profile `UPDATE` fail when its parameter is null
(node-postgres sends JavaScript `undefined`/`null` parameters as SQL NULL).
Parsing of the NUMERIC latitude/longitude columns is not modelled: the
handlers forward the raw request values, and no claim depends on numeric
interpretation, so the stored coordinate is kept as the forwarded string.
-/

namespace PontoUrbano

/-- A JavaScript value as it can appear in a parsed request-body field. -/
inductive JVal where
  | undef
  | jnull
  | str (s : String)
  | num (n : Int)
deriving DecidableEq, Repr

/-- JavaScript truthiness: `undefined`, `null`, `""` and `0` are falsy;
this is what the guards `if (!nome || !email || ...)` test. -/
def JVal.truthy : JVal → Bool
  | .undef => false
  | .jnull => false
  | .str s => s ≠ ""
  | .num n => n ≠ 0

/-- JavaScript loose equality with null: `x == null` holds exactly for
`undefined` and `null`; this is what `latitude == null` tests. -/
def JVal.isNullish : JVal → Bool
  | .undef => true
  | .jnull => true
  | .str _ => false
  | .num _ => false

/-- The string a `JVal` contributes when used as a SQL query parameter or
stored column value (drivers stringify numbers; nullish values do not reach
this point in the embedded handlers that use it). -/
def JVal.asString : JVal → String
  | .undef => ""
  | .jnull => ""
  | .str s => s
  | .num n => toString n

/-- A JSON document, used for response bodies built by `res.json(...)`. -/
inductive Json where
  | jnull
  | bool (b : Bool)
  | str (s : String)
  | num (n : Int)
  | obj (kvs : List (String × Json))

mutual

/-- Whether key `k` occurs anywhere in a JSON document (at any nesting
depth); used to state that no response body ever carries a `senha` key. -/
def Json.hasKey : String → Json → Bool
  | k, Json.obj kvs => Json.hasKeyKVs k kvs
  | _, _ => false

/-- Key occurrence inside an object's field list. -/
def Json.hasKeyKVs : String → List (String × Json) → Bool
  | _, [] => false
  | k, kv :: rest => kv.1 == k || Json.hasKey k kv.2 || Json.hasKeyKVs k rest

end

/-- An HTTP response: status code plus JSON body. -/
structure Resp where
  status : Nat
  body : Json

/-- The `{success, message}` JSON body shape used by most error and
confirmation responses. -/
def jsonMsg (ok : Bool) (m : String) : Json :=
  .obj [("success", .bool ok), ("message", .str m)]

/-- The `{success, message, error}` body produced by the catch blocks. -/
def jsonErr (m e : String) : Json :=
  .obj [("success", .bool false), ("message", .str m), ("error", .str e)]

/-- A row of the `usuarios` table (part_001 schema: `id SERIAL, nome NOT
NULL, email NOT NULL UNIQUE, senha NOT NULL, foto_perfil, created_at`). -/
structure UsuarioRow where
  id : Nat
  nome : String
  email : String
  senha : String
  foto_perfil : Option String
  created_at : Nat
deriving DecidableEq, Repr

/-- A row of the `problemas` table.  `usuario_id` exists only in the
part_001 schema; the MySQL variant of the table has no such column, which
the disk-variant handler models by always storing `none`. -/
structure ProblemaRow where
  id : Nat
  tipo : String
  descricao : String
  data : String
  latitude : String
  longitude : String
  categoria : String
  foto : Option String
  usuario_id : Option Nat
  created_at : Nat
deriving DecidableEq, Repr

/-- The relational store: both tables plus the monotone sources for SERIAL
ids and `CURRENT_TIMESTAMP` values. -/
structure DB where
  usuarios : List UsuarioRow
  problemas : List ProblemaRow
  nextUsuarioId : Nat
  nextProblemaId : Nat
  clock : Nat
deriving DecidableEq, Repr

/-- The server-side session record attached to a request
(`req.session.userId / userName / userEmail`, each possibly unset). -/
structure Session where
  userId : Option Nat
  userName : Option String
  userEmail : Option String
deriving DecidableEq, Repr

/-- JavaScript truthiness of `req.session.userId`, the test made by the
`requireAuth` middleware. -/
def Session.authed (s : Session) : Bool :=
  match s.userId with
  | some n => n ≠ 0
  | none => false

/-- An uploaded multipart file as multer presents it
(`mimetype`, `size` in bytes, and the buffered content). -/
structure UFile where
  mimetype : String
  size : Nat
  content : String
deriving DecidableEq, Repr

/-- Modelled external password-hashing library (bcryptjs): `hash` with a
cost factor, injective in the password for a fixed cost. -/
def bcryptHash (senha : String) (cost : Nat) : String :=
  "bcrypt$" ++ toString cost ++ "$" ++ senha

/-- Modelled `bcrypt.compare`: succeeds exactly when the stored hash is the
hash of the presented password (registration always uses cost 10). -/
def bcryptCompare (senha hash : String) : Bool :=
  hash == bcryptHash senha 10

/-- SQL NULL-able string column rendered into a JSON body. -/
def jsonOfOptStr : Option String → Json
  | some s => .str s
  | none => .jnull

/-- Embeds `SELECT * FROM usuarios WHERE email = $1` followed by `rows[0]`. -/
def findUsuarioByEmail (db : DB) (e : String) : Option UsuarioRow :=
  db.usuarios.find? (fun u => u.email == e)

/-- Body of `POST /login`. -/
structure LoginReq where
  email : JVal
  senha : JVal
deriving DecidableEq, Repr

/-- Handler of `POST /login` (part_001 lines 182-213; the server.js and part_000
handlers differ only in the success body, which lacks `foto_perfil`).
Returns the response and the session after the request. -/
def postLogin (db : DB) (s : Session) (req : LoginReq) : Resp × Session :=
  if !req.email.truthy || !req.senha.truthy then
    (⟨400, jsonMsg false "E-mail e senha são obrigatórios"⟩, s)
  else
    match findUsuarioByEmail db req.email.asString with
    | none => (⟨400, jsonMsg false "E-mail ou senha incorretos"⟩, s)
    | some u =>
      if !bcryptCompare req.senha.asString u.senha then
        (⟨400, jsonMsg false "E-mail ou senha incorretos"⟩, s)
      else
        (⟨200, Json.obj [("success", .bool true),
                         ("message", .str "Login realizado com sucesso"),
                         ("user", Json.obj [("id", .num (Int.ofNat u.id)),
                                            ("nome", .str u.nome),
                                            ("email", .str u.email),
                                            ("foto_perfil", jsonOfOptStr u.foto_perfil)])]⟩,
         ⟨some u.id, some u.nome, some u.email⟩)

/-- The database together with the remote image host, modelled as the list
of secure URLs it currently stores (part_001's Cloudinary deployment). -/
structure CloudState where
  db : DB
  remote : List String
deriving DecidableEq, Repr

/-- JavaScript `String.prototype.startsWith`, over character lists. -/
def strStartsWith (s p : String) : Bool :=
  p.data.isPrefixOf s.data

/-- Outcome class of the multer gate of part_001 (lines 92-105). -/
inductive MulterErr where
  | notImage
  | tooLarge
deriving DecidableEq, Repr

/-- The multer gate of part_001: memory storage, a fileFilter accepting
only MIME types starting with `image/`, and a 5MB (5 * 1024 * 1024 bytes)
size limit. -/
def multerCheck : Option UFile → Option MulterErr
  | none => none
  | some f =>
    if !strStartsWith f.mimetype "image/" then some .notImage
    else if f.size > 5 * 1024 * 1024 then some .tooLarge
    else none

/-- Response produced when multer aborts the request: the error middleware
(part_001 lines 436-446) maps a MulterError with code LIMIT_FILE_SIZE to
400; the fileFilter's generic Error falls through to the 500 branch. -/
def multerErrResp : MulterErr → Resp
  | .tooLarge => ⟨400, jsonMsg false "A imagem deve ter no máximo 5MB"⟩
  | .notImage => ⟨500, jsonErr "Erro interno no servidor" "Apenas arquivos de imagem são permitidos!"⟩

/-- Body of `POST /cadastro` (`upload.single` puts the optional multipart
photo in `req.file`). -/
structure CadastroReq where
  nome : JVal
  email : JVal
  senha : JVal
  file : Option UFile
deriving DecidableEq, Repr

/-- The default profile picture data-URI of part_001 line 129. -/
def defaultFotoPerfil : String :=
  "data:image/svg+xml;base64,PHN2ZyB4bWxucz0iaHR0cDovL3d3dy53My5vcmcvMjAwMC9zdmciIHZpZXdCb3g9IjAgMCA2NDAgNjQwIj48cGF0aCBmaWxsPSIjMWE3M2U4IiBkPSJNMzIwIDMxMkMzODYuMyAzMTIgNDQwIDI1OC4zIDQ0MCAxOTJDNDQwIDEyNS43IDM4Ni4zIDcyIDMyMCA3MkMyNTMuNyA3MiAyMDAgMTI1LjcgMjAwIDE5MkMyMDAgMjU4LjMgMjUzLjcgMzEyIDMyMCAzMTJ6TTI5MC4zIDM2OEMxOTEuOCAzNjggMTEyIDQ0Ny44IDExMiA1NDYuM0MxMTIgNTYyLjcgMTI1LjMgNTc2IDE0MS43IDU3Nkw0OTguMyA1NzZDNTE0LjcgNTc2IDUyOCA1NjIuNyA1MjggNTQ2LjNDNTI4IDQ0Ny44IDQ0OC4yIDM2OCAzNDkuNyAzNjhMMjkwLjMgMzY4eiIvPjwvc3ZnPg=="

/-- The optional-photo step shared by the part_001 handlers: `upl` is the
Cloudinary uploader.  Yields `.ok (some url, remote1)` after a successful
upload (the URL now held by the remote host), `.ok (none, remote)` when no
file was sent, and `.error e` when the upload throws. -/
def fotoStep (upl : UFile → Except String String) (file : Option UFile)
    (remote : List String) : Except String (Option String × List String) :=
  match file with
  | some f =>
    match upl f with
    | .ok url => .ok (some url, remote ++ [url])
    | .error e => .error e
  | none => .ok (none, remote)

/-- The `POST /cadastro` handler of part_001 (lines 121-179): on a thrown
upload the response is 500 and no row is created; with no photo the default
data-URI is kept as `fotoPerfilUrl`. -/
def postCadastro (upl : UFile → Except String String) (st : CloudState) (req : CadastroReq) :
    Resp × CloudState :=
  if !req.nome.truthy || !req.email.truthy || !req.senha.truthy then
    (⟨400, jsonMsg false "Todos os campos são obrigatórios"⟩, st)
  else if (st.db.usuarios.filter (fun u => u.email == req.email.asString)).length > 0 then
    (⟨400, jsonMsg false "E-mail já cadastrado"⟩, st)
  else
    match fotoStep upl req.file st.remote with
    | .error e => (⟨500, jsonErr "Erro ao fazer upload da imagem de perfil" e⟩, st)
    | .ok (fopt, remote1) =>
      let fotoPerfilUrl := fopt.getD defaultFotoPerfil
      let hashed := bcryptHash req.senha.asString 10
      let newUser : UsuarioRow :=
        ⟨st.db.nextUsuarioId, req.nome.asString, req.email.asString, hashed,
         some fotoPerfilUrl, st.db.clock⟩
      let db1 : DB :=
        ⟨st.db.usuarios ++ [newUser], st.db.problemas,
         st.db.nextUsuarioId + 1, st.db.nextProblemaId, st.db.clock + 1⟩
      (⟨201, Json.obj [("success", .bool true),
                       ("message", .str "Usuário criado com sucesso"),
                       ("user", Json.obj [("id", .num (Int.ofNat newUser.id)),
                                          ("nome", .str newUser.nome),
                                          ("email", .str newUser.email),
                                          ("foto_perfil", jsonOfOptStr newUser.foto_perfil)])]⟩,
       ⟨db1, remote1⟩)

/-- The full `POST /cadastro` route of part_001: the multer stage
(`upload.single` with its filter and size limit) runs before the handler. -/
def cadastroRoute (upl : UFile → Except String String) (st : CloudState) (req : CadastroReq) :
    Resp × CloudState :=
  match multerCheck req.file with
  | some e => (multerErrResp e, st)
  | none => postCadastro upl st req

/-- One output row of `GET /problemas` in part_001: `p.*` plus the joined
`usuario_nome` and `usuario_foto_perfil` columns (NULL when the LEFT JOIN
finds no user). -/
structure ProblemaJoinedRow where
  row : ProblemaRow
  usuario_nome : Option String
  usuario_foto_perfil : Option String
deriving DecidableEq, Repr

/-- Embeds `LEFT JOIN usuarios u ON p.usuario_id = u.id`. -/
def joinUsuarioCols (db : DB) (p : ProblemaRow) : ProblemaJoinedRow :=
  match p.usuario_id with
  | some uid =>
    match db.usuarios.find? (fun u => u.id == uid) with
    | some u => ⟨p, some u.nome, u.foto_perfil⟩
    | none => ⟨p, none, none⟩
  | none => ⟨p, none, none⟩

/-- The comparison realised by `ORDER BY p.created_at DESC`. -/
def byCreatedDesc (a b : ProblemaRow) : Prop :=
  b.created_at ≤ a.created_at

instance : DecidableRel byCreatedDesc := fun a b => Nat.decLe b.created_at a.created_at

instance : IsTotal ProblemaRow byCreatedDesc :=
  ⟨fun a b => Nat.le_total b.created_at a.created_at⟩

instance : IsTrans ProblemaRow byCreatedDesc :=
  ⟨fun _ _ _ h1 h2 => Nat.le_trans h2 h1⟩

/-- Handler of `GET /problemas` (part_001 lines 328-342): every stored report,
left-joined with its user, ordered by `created_at` descending. -/
def getProblemas (db : DB) : List ProblemaJoinedRow :=
  (List.insertionSort byCreatedDesc db.problemas).map (joinUsuarioCols db)

/-- Body of `POST /problemas` (six text fields plus the optional photo). -/
structure ProblemaReq where
  tipo : JVal
  descricao : JVal
  data : JVal
  latitude : JVal
  longitude : JVal
  categoria : JVal
  file : Option UFile
deriving DecidableEq, Repr

/-- The rejection guard of the POST /problemas handlers:
`!tipo || !descricao || !data || latitude == null || longitude == null ||
!categoria` — truthiness for the four text fields, loose null comparison
for the two coordinates. -/
def problemaMissing (r : ProblemaReq) : Bool :=
  !r.tipo.truthy || !r.descricao.truthy || !r.data.truthy ||
  r.latitude.isNullish || r.longitude.isNullish || !r.categoria.truthy

/-- JavaScript `String.prototype.split` with a one-character separator,
over character lists. -/
def splitChar (c : Char) : List Char → List (List Char)
  | [] => [[]]
  | x :: xs =>
    let r := splitChar c xs
    if x == c then [] :: r else (x :: r.headD []) :: r.tail

/-- Whether a string is accepted by the input parser of the NUMERIC /
DECIMAL columns: an optional sign, then digits with at most one decimal
point and at least one digit.  The empty string in particular is rejected
(Postgres error 22P02, MySQL strict mode error).  Exponents and
surrounding whitespace are not used by this application's inputs and are
not modelled. -/
def isNumericLit (s : String) : Bool :=
  let l := match s.data with
    | '+' :: rest => rest
    | '-' :: rest => rest
    | l => l
  match splitChar '.' l with
  | [intPart] => !intPart.isEmpty && intPart.all (fun c => c.isDigit)
  | [intPart, fracPart] =>
    !(intPart.isEmpty && fracPart.isEmpty) &&
      intPart.all (fun c => c.isDigit) && fracPart.all (fun c => c.isDigit)
  | _ => false

/-- Embeds `INSERT INTO problemas (...) VALUES (...)`.  The
`latitude NUMERIC(10,8) NOT NULL` and `longitude NUMERIC(11,8) NOT NULL`
columns (DECIMAL in the MySQL schema) reject a forwarded parameter that is
not a valid numeric literal, so the statement throws and the handler's
catch block answers; otherwise the row built from the forwarded request
values is appended and the generated id returned.  Precision overflow and
the DATE column's parse are not modelled: no claim depends on them. -/
def insertProblema (db : DB) (r : ProblemaReq) (foto : Option String) (uid : Option Nat) :
    Except String (DB × Nat) :=
  if !isNumericLit r.latitude.asString || !isNumericLit r.longitude.asString then
    .error "invalid input syntax for type numeric"
  else
    let row : ProblemaRow :=
      ⟨db.nextProblemaId, r.tipo.asString, r.descricao.asString, r.data.asString,
       r.latitude.asString, r.longitude.asString, r.categoria.asString, foto, uid, db.clock⟩
    .ok (⟨db.usuarios, db.problemas ++ [row], db.nextUsuarioId, db.nextProblemaId + 1,
          db.clock + 1⟩,
         db.nextProblemaId)

/-- The database together with the local upload directory, modelled as the
list of file names it contains (server.js / part_000 deployments). -/
structure DiskState where
  db : DB
  disk : List String
deriving DecidableEq, Repr

/-- Route `POST /problemas` of server.js (lines 288-321) with its middleware
chain: `requireAuth` first, then multer disk storage — which writes the
uploaded file under the generated unique name `fname` before the handler
runs (this variant's multer has no filter and no size limit) — then the
handler, which `fs.unlinkSync`s the file again when validation fails and
in the catch block when the INSERT throws.  The MySQL `problemas` table
has no `usuario_id` column, embedded as storing `none`. -/
def postProblemasDisk (st : DiskState) (s : Session) (req : ProblemaReq) (fname : String) :
    Resp × DiskState :=
  if !s.authed then
    (⟨401, jsonMsg false "Não autorizado. Faça login primeiro."⟩, st)
  else
    let disk1 := match req.file with
      | some _ => st.disk ++ [fname]
      | none => st.disk
    let fotoPath : Option String := match req.file with
      | some _ => some ("uploads/" ++ fname)
      | none => none
    if problemaMissing req then
      let disk2 := match req.file with
        | some _ => disk1.erase fname
        | none => disk1
      (⟨400, jsonMsg false "Todos os campos são obrigatórios"⟩, ⟨st.db, disk2⟩)
    else
      match insertProblema st.db req fotoPath none with
      | .error e =>
        let disk2 := match req.file with
          | some _ => disk1.erase fname
          | none => disk1
        (⟨500, jsonErr "Erro ao salvar problema" e⟩, ⟨st.db, disk2⟩)
      | .ok (db2, newId) =>
        (⟨201, Json.obj [("success", .bool true),
                         ("message", .str "Problema registrado com sucesso"),
                         ("id", .num (Int.ofNat newId)),
                         ("foto", jsonOfOptStr fotoPath)]⟩,
         ⟨db2, disk1⟩)

/-- Route `POST /problemas` of part_001 (lines 345-396) with its middleware
chain: `requireAuth`, the multer gate, validation, the optional Cloudinary
upload, then the INSERT tagged with the session's user id. -/
def postProblemasCloud (upl : UFile → Except String String) (st : CloudState) (s : Session)
    (req : ProblemaReq) : Resp × CloudState :=
  if !s.authed then
    (⟨401, jsonMsg false "Não autorizado. Faça login primeiro."⟩, st)
  else
    match multerCheck req.file with
    | some e => (multerErrResp e, st)
    | none =>
      if problemaMissing req then
        (⟨400, jsonMsg false "Todos os campos são obrigatórios"⟩, st)
      else
        match fotoStep upl req.file st.remote with
        | .error e => (⟨500, jsonErr "Erro ao fazer upload da imagem" e⟩, st)
        | .ok (fotoUrl, remote1) =>
          match insertProblema st.db req fotoUrl s.userId with
          | .error e => (⟨500, jsonErr "Erro ao salvar problema" e⟩, ⟨st.db, remote1⟩)
          | .ok (db2, newId) =>
            (⟨201, Json.obj [("success", .bool true),
                             ("message", .str "Problema registrado com sucesso"),
                             ("id", .num (Int.ofNat newId)),
                             ("foto", jsonOfOptStr fotoUrl)]⟩,
             ⟨db2, remote1⟩)

/-- Whether `sub` occurs contiguously in `l`
(JavaScript `String.prototype.includes`). -/
def listContainsSub (sub : List Char) : List Char → Bool
  | [] => sub.isEmpty
  | x :: xs => sub.isPrefixOf (x :: xs) || listContainsSub sub xs

/-- JavaScript `s.includes(sub)`. -/
def strIncludes (s sub : String) : Bool :=
  listContainsSub sub.data s.data

/-- The Cloudinary public id derived from a stored URL (part_001 lines
413-416): the last `/`-segment with its extension stripped, under the
`ponto-urbano` folder. -/
def publicIdOfUrl (url : String) : String :=
  let parts := splitChar '/' url.data
  let filename := parts.getLastD []
  "ponto-urbano/" ++ String.mk ((splitChar '.' filename).headD [])

/-- Route `DELETE /problemas/:id/foto` (part_001 lines 399-430), behind
`requireAuth`.  The third component lists the `cloudinary.uploader.destroy`
calls issued against the remote host (the host's own state change on a
destroy is outside the model; the claims need only which deletes were
issued). -/
def deleteProblemaFoto (st : CloudState) (s : Session) (pid : Nat) :
    Resp × CloudState × List String :=
  if !s.authed then
    (⟨401, jsonMsg false "Não autorizado. Faça login primeiro."⟩, st, [])
  else
    match st.db.problemas.find? (fun p => p.id == pid) with
    | none => (⟨404, jsonMsg false "Problema não encontrado"⟩, st, [])
    | some p =>
      let destroyed : List String :=
        match p.foto with
        | some url => if strIncludes url "cloudinary.com" then [publicIdOfUrl url] else []
        | none => []
      let db1 : DB :=
        ⟨st.db.usuarios,
         st.db.problemas.map (fun q =>
           if q.id == pid then
             ⟨q.id, q.tipo, q.descricao, q.data, q.latitude, q.longitude, q.categoria,
              none, q.usuario_id, q.created_at⟩
           else q),
         st.db.nextUsuarioId, st.db.nextProblemaId, st.db.clock⟩
      (⟨200, jsonMsg true "Foto removida com sucesso"⟩, ⟨db1, st.remote⟩, destroyed)

/-- Body of `PUT /perfil`. -/
structure PerfilReq where
  nome : JVal
  file : Option UFile
deriving DecidableEq, Repr

/-- A JVal rendered as a SQL query parameter: node-postgres sends JavaScript
`undefined` and `null` as SQL NULL and stringifies other values. -/
def JVal.sqlParam : JVal → Option String
  | .undef => none
  | .jnull => none
  | .str s => some s
  | .num n => some (toString n)

/-- The row transformation of the perfil UPDATE: the row with the matching
id receives the new nome (and, when the SET clause includes it, the new
foto_perfil); every other row is untouched. -/
def updPerfilRow (uid : Nat) (nomeP : Option String) (fotoP : Option String) (setFoto : Bool)
    (u : UsuarioRow) : UsuarioRow :=
  if u.id == uid then
    ⟨u.id, nomeP.getD u.nome, u.email, u.senha,
     if setFoto then fotoP else u.foto_perfil, u.created_at⟩
  else u

/-- The UPDATE statement of PUT /perfil (part_001 lines 274-285) with
RETURNING rows.  The `usuarios.nome` column is `NOT NULL`, so the statement
errors when a matched row would receive a NULL nome; with no matched row it
succeeds returning no rows. -/
def updatePerfilRows (db : DB) (uid : Nat) (nomeP : Option String) (fotoP : Option String)
    (setFoto : Bool) : Except String (DB × List UsuarioRow) :=
  if db.usuarios.any (fun u => u.id == uid) && nomeP.isNone then
    .error "null value in column nome violates not-null constraint"
  else
    let f := updPerfilRow uid nomeP fotoP setFoto
    let db1 : DB :=
      ⟨db.usuarios.map f, db.problemas, db.nextUsuarioId, db.nextProblemaId, db.clock⟩
    .ok (db1, (db.usuarios.map f).filter (fun u => u.id == uid))

/-- Route `PUT /perfil` (part_001 lines 241-305) with its middleware chain:
`requireAuth`, the multer gate, the optional Cloudinary upload, then the
UPDATE.  When the UPDATE matches no row, `result.rows[0]` is undefined and
reading `.nome` throws, landing in the catch block (500).  Returns the
response, the new state and the session after the request. -/
def putPerfil (upl : UFile → Except String String) (st : CloudState) (s : Session)
    (req : PerfilReq) : Resp × CloudState × Session :=
  if !s.authed then
    (⟨401, jsonMsg false "Não autorizado. Faça login primeiro."⟩, st, s)
  else
    match multerCheck req.file with
    | some e => (multerErrResp e, st, s)
    | none =>
      let uid := s.userId.getD 0
      match fotoStep upl req.file st.remote with
      | .error e => (⟨500, jsonErr "Erro ao fazer upload da imagem de perfil" e⟩, st, s)
      | .ok (fotoPerfilUrl, remote1) =>
        let useFoto := !((fotoPerfilUrl.getD "") == "")
        match updatePerfilRows st.db uid req.nome.sqlParam fotoPerfilUrl useFoto with
        | .error e => (⟨500, jsonErr "Erro ao atualizar perfil" e⟩, ⟨st.db, remote1⟩, s)
        | .ok (db1, rows) =>
          match rows.head? with
          | none =>
            (⟨500, jsonErr "Erro ao atualizar perfil" "Cannot read properties of undefined"⟩,
             ⟨db1, remote1⟩, s)
          | some u =>
            (⟨200, Json.obj [("success", .bool true),
                             ("message", .str "Perfil atualizado com sucesso"),
                             ("user", Json.obj [("id", .num (Int.ofNat u.id)),
                                                ("nome", .str u.nome),
                                                ("email", .str u.email),
                                                ("foto_perfil", jsonOfOptStr u.foto_perfil)])]⟩,
             ⟨db1, remote1⟩, ⟨s.userId, some u.nome, s.userEmail⟩)

/-! ## Helper lemmas -/

theorem isNullish_not_truthy {v : JVal} (h : v.isNullish = true) : v.truthy = false := by
  cases v <;> simp_all [JVal.isNullish, JVal.truthy]

theorem joinUsuarioCols_row (db : DB) (p : ProblemaRow) : (joinUsuarioCols db p).row = p := by
  unfold joinUsuarioCols
  split
  · split <;> rfl
  · rfl

theorem erase_appended_fresh {l : List String} {a : String} (h : a ∉ l) :
    (l ++ [a]).erase a = l := by
  rw [List.erase_append_right _ h, List.erase_cons_head, List.append_nil]

/-! ## Claims -/

/-- C1: a login request whose email matches no stored user and a login
request whose email matches a stored user but whose password fails the
bcrypt check receive the very same response: status 400 with the generic
body `E-mail ou senha incorretos`, and the session is left untouched, so
the two failure causes are indistinguishable to the caller. -/
theorem login_failure_indistinguishable (db : DB) (s : Session) (req : LoginReq)
    (hemail : req.email.truthy = true) (hsenha : req.senha.truthy = true)
    (hfail : ∀ u, findUsuarioByEmail db req.email.asString = some u →
      bcryptCompare req.senha.asString u.senha = false) :
    postLogin db s req = (⟨400, jsonMsg false "E-mail ou senha incorretos"⟩, s) := by
  unfold postLogin
  rw [hemail, hsenha]
  simp only [Bool.not_true, Bool.or_self, Bool.false_eq_true, if_false]
  cases hfind : findUsuarioByEmail db req.email.asString with
  | none => rfl
  | some u => simp [hfail u hfind]

/-- Concrete instance of C1: one stored user, login with the right email
and a wrong password. -/
theorem login_failure_indistinguishable_witness :
    postLogin ⟨[⟨1, "Ana", "ana@mail.com", bcryptHash "segredo" 10, none, 0⟩], [], 2, 1, 1⟩
        ⟨none, none, none⟩ ⟨.str "ana@mail.com", .str "errada"⟩ =
      (⟨400, jsonMsg false "E-mail ou senha incorretos"⟩, ⟨none, none, none⟩) := by
  apply login_failure_indistinguishable
  · rfl
  · rfl
  · intro u hu
    have hu' : some (⟨1, "Ana", "ana@mail.com", bcryptHash "segredo" 10, none, 0⟩ : UsuarioRow)
        = some u := hu
    cases hu'
    rfl

/-- C2: `GET /problemas` returns a permutation of all stored reports (each
left-joined with its user), sorted by creation time descending; hence a
report created strictly later than another appears strictly earlier in the
returned array. -/
theorem getProblemas_newest_first (db : DB) :
    (getProblemas db).Perm (db.problemas.map (joinUsuarioCols db)) ∧
    List.Sorted (fun a b : ProblemaJoinedRow => b.row.created_at ≤ a.row.created_at)
      (getProblemas db) ∧
    ∀ (i j : Fin (getProblemas db).length),
      ((getProblemas db).get i).row.created_at < ((getProblemas db).get j).row.created_at →
      (j : Nat) < (i : Nat) := by
  have hsorted : List.Sorted (fun a b : ProblemaJoinedRow => b.row.created_at ≤ a.row.created_at)
      (getProblemas db) := by
    apply List.Pairwise.map (joinUsuarioCols db)
      (fun a b (hab : byCreatedDesc a b) => ?_)
      (List.sorted_insertionSort byCreatedDesc db.problemas)
    rw [joinUsuarioCols_row, joinUsuarioCols_row]
    exact hab
  refine ⟨(List.perm_insertionSort byCreatedDesc db.problemas).map (joinUsuarioCols db), hsorted, ?_⟩
  intro i j hlt
  by_contra hnot
  have hij : (i : Nat) ≤ (j : Nat) := Nat.le_of_not_lt hnot
  rcases Nat.eq_or_lt_of_le hij with heq | hstrict
  · exact absurd hlt (by rw [Fin.ext heq]; exact Nat.lt_irrefl _)
  · exact absurd hlt (Nat.not_lt.mpr (hsorted.rel_get_of_lt hstrict))

/-- Concrete instance of C2: with two stored reports, the one created
second sits at index 0, before the one created first. -/
theorem getProblemas_newest_first_witness : (0 : Nat) < 1 := by
  have h := getProblemas_newest_first
    ⟨[], [⟨1, "buraco", "rua A", "2025-01-01", "1.0", "2.0", "via", none, none, 0⟩,
          ⟨2, "lixo", "rua B", "2025-01-02", "1.0", "2.0", "limpeza", none, none, 1⟩], 1, 3, 2⟩
  exact h.2.2 ⟨1, by decide⟩ ⟨0, by decide⟩ (by decide)

/-- C3: a registration request carrying all three fields but an email that
already belongs to a stored user gets the conflict response (400,
`E-mail já cadastrado`) and the whole state — in particular the user
table — is left unchanged: no second row with that email is created. -/
theorem cadastro_conflict_no_second_row (upl : UFile → Except String String)
    (st : CloudState) (req : CadastroReq)
    (hnome : req.nome.truthy = true) (hemail : req.email.truthy = true)
    (hsenha : req.senha.truthy = true)
    (hmulter : multerCheck req.file = none)
    (hdup : ∃ u ∈ st.db.usuarios, u.email = req.email.asString) :
    cadastroRoute upl st req = (⟨400, jsonMsg false "E-mail já cadastrado"⟩, st) := by
  unfold cadastroRoute
  rw [hmulter]
  unfold postCadastro
  rw [hnome, hemail, hsenha]
  obtain ⟨u, hu, heq⟩ := hdup
  have hmem : u ∈ st.db.usuarios.filter (fun v => v.email == req.email.asString) :=
    List.mem_filter.mpr ⟨hu, by simp [heq]⟩
  have hpos : (st.db.usuarios.filter (fun v => v.email == req.email.asString)).length > 0 :=
    List.length_pos.mpr (List.ne_nil_of_mem hmem)
  simp [hpos]

/-- Concrete instance of C3: re-registering an already-stored email. -/
theorem cadastro_conflict_no_second_row_witness :
    cadastroRoute (fun _ => .error "offline")
        ⟨⟨[⟨1, "Ana", "ana@mail.com", bcryptHash "s" 10, none, 0⟩], [], 2, 1, 1⟩, []⟩
        ⟨.str "Bia", .str "ana@mail.com", .str "outra", none⟩ =
      (⟨400, jsonMsg false "E-mail já cadastrado"⟩,
       ⟨⟨[⟨1, "Ana", "ana@mail.com", bcryptHash "s" 10, none, 0⟩], [], 2, 1, 1⟩, []⟩) := by
  apply cadastro_conflict_no_second_row
  · rfl
  · rfl
  · rfl
  · rfl
  · exact ⟨⟨1, "Ana", "ana@mail.com", bcryptHash "s" 10, none, 0⟩,
      List.mem_singleton.mpr rfl, rfl⟩

/-- C4: a registration with all fields present, a fresh email and a
successful (or absent) photo step creates exactly the new user row and
answers 201 with the public projection {id, nome, email, foto_perfil};
the body carries no `senha` key at any depth, so the password hash is
never returned. -/
theorem cadastro_success_public_projection (upl : UFile → Except String String)
    (st : CloudState) (req : CadastroReq) (fopt : Option String) (remote1 : List String)
    (hnome : req.nome.truthy = true) (hemail : req.email.truthy = true)
    (hsenha : req.senha.truthy = true)
    (hmulter : multerCheck req.file = none)
    (hfresh : ∀ u ∈ st.db.usuarios, u.email ≠ req.email.asString)
    (hstep : fotoStep upl req.file st.remote = .ok (fopt, remote1)) :
    cadastroRoute upl st req =
      (⟨201, Json.obj [("success", .bool true),
                       ("message", .str "Usuário criado com sucesso"),
                       ("user", Json.obj
                         [("id", .num (Int.ofNat st.db.nextUsuarioId)),
                          ("nome", .str req.nome.asString),
                          ("email", .str req.email.asString),
                          ("foto_perfil", .str (fopt.getD defaultFotoPerfil))])]⟩,
       ⟨⟨st.db.usuarios ++
           [⟨st.db.nextUsuarioId, req.nome.asString, req.email.asString,
             bcryptHash req.senha.asString 10, some (fopt.getD defaultFotoPerfil), st.db.clock⟩],
         st.db.problemas, st.db.nextUsuarioId + 1, st.db.nextProblemaId, st.db.clock + 1⟩,
        remote1⟩) ∧
    Json.hasKey "senha" (cadastroRoute upl st req).1.body = false := by
  have hfilter : st.db.usuarios.filter (fun v => v.email == req.email.asString) = [] := by
    rw [List.filter_eq_nil_iff]
    intro u hu
    simp [hfresh u hu]
  have hroute : cadastroRoute upl st req =
      (⟨201, Json.obj [("success", .bool true),
                       ("message", .str "Usuário criado com sucesso"),
                       ("user", Json.obj
                         [("id", .num (Int.ofNat st.db.nextUsuarioId)),
                          ("nome", .str req.nome.asString),
                          ("email", .str req.email.asString),
                          ("foto_perfil", .str (fopt.getD defaultFotoPerfil))])]⟩,
       ⟨⟨st.db.usuarios ++
           [⟨st.db.nextUsuarioId, req.nome.asString, req.email.asString,
             bcryptHash req.senha.asString 10, some (fopt.getD defaultFotoPerfil), st.db.clock⟩],
         st.db.problemas, st.db.nextUsuarioId + 1, st.db.nextProblemaId, st.db.clock + 1⟩,
        remote1⟩) := by
    unfold cadastroRoute
    rw [hmulter]
    unfold postCadastro
    rw [hnome, hemail, hsenha, hfilter, hstep]
    simp [jsonOfOptStr]
  refine ⟨hroute, ?_⟩
  rw [hroute]
  simp [Json.hasKey, Json.hasKeyKVs]

/-- Concrete instance of C4: registering a fresh user with a profile photo
that uploads successfully. -/
theorem cadastro_success_public_projection_witness :
    cadastroRoute (fun _ => .ok "https://res.cloudinary.com/x/p.png") ⟨⟨[], [], 1, 1, 0⟩, []⟩
        ⟨.str "Ana", .str "ana@mail.com", .str "segredo", some ⟨"image/png", 100, "bytes"⟩⟩ =
      (⟨201, Json.obj [("success", .bool true),
                       ("message", .str "Usuário criado com sucesso"),
                       ("user", Json.obj
                         [("id", .num 1),
                          ("nome", .str "Ana"),
                          ("email", .str "ana@mail.com"),
                          ("foto_perfil", .str "https://res.cloudinary.com/x/p.png")])]⟩,
       ⟨⟨[⟨1, "Ana", "ana@mail.com", bcryptHash "segredo" 10,
           some "https://res.cloudinary.com/x/p.png", 0⟩], [], 2, 1, 1⟩,
        ["https://res.cloudinary.com/x/p.png"]⟩) := by
  have h := cadastro_success_public_projection (fun _ => .ok "https://res.cloudinary.com/x/p.png")
    ⟨⟨[], [], 1, 1, 0⟩, []⟩
    ⟨.str "Ana", .str "ana@mail.com", .str "segredo", some ⟨"image/png", 100, "bytes"⟩⟩
    (some "https://res.cloudinary.com/x/p.png") ["https://res.cloudinary.com/x/p.png"]
    rfl rfl rfl (by decide) (by intro u hu; simp at hu) rfl
  exact h.1

theorem problemaMissing_of_nullish {req : ProblemaReq}
    (h : (req.tipo.isNullish || req.descricao.isNullish || req.data.isNullish ||
          req.latitude.isNullish || req.longitude.isNullish ||
          req.categoria.isNullish) = true) :
    problemaMissing req = true := by
  simp only [Bool.or_eq_true] at h
  rcases h with ((((h | h) | h) | h) | h) | h <;>
    simp [problemaMissing, isNullish_not_truthy h, h]

/-- C5: a report submission (authenticated, photo past the upload gate)
with some required field absent or null is answered 400 with the
validation message, and the state after the response equals the state
before it: no report row is created, the file multer had written to disk
is unlinked again (disk variant), and nothing reaches the remote image
host (Cloudinary variant). -/
theorem problemas_missing_field_rejected (st : DiskState) (stc : CloudState) (s : Session)
    (req : ProblemaReq) (fname : String) (upl : UFile → Except String String)
    (hauth : s.authed = true)
    (hmiss : (req.tipo.isNullish || req.descricao.isNullish || req.data.isNullish ||
              req.latitude.isNullish || req.longitude.isNullish ||
              req.categoria.isNullish) = true)
    (hfresh : fname ∉ st.disk)
    (hmulter : multerCheck req.file = none) :
    postProblemasDisk st s req fname =
      (⟨400, jsonMsg false "Todos os campos são obrigatórios"⟩, st) ∧
    postProblemasCloud upl stc s req =
      (⟨400, jsonMsg false "Todos os campos são obrigatórios"⟩, stc) := by
  have hm := problemaMissing_of_nullish hmiss
  constructor
  · cases hfile : req.file with
    | none => simp [postProblemasDisk, hauth, hm, hfile]
    | some f => simp [postProblemasDisk, hauth, hm, hfile, erase_appended_fresh hfresh]
  · simp [postProblemasCloud, hauth, hmulter, hm]

/-- Concrete instance of C5: an authenticated submission with a photo but
a missing latitude. -/
theorem problemas_missing_field_rejected_witness :
    postProblemasDisk ⟨⟨[], [], 1, 1, 0⟩, ["old.png"]⟩ ⟨some 1, some "Ana", some "a@b.c"⟩
        ⟨.str "buraco", .str "desc", .str "2025-01-01", .undef, .str "2.0", .str "via",
         some ⟨"image/png", 100, "bytes"⟩⟩ "123-456.png" =
      (⟨400, jsonMsg false "Todos os campos são obrigatórios"⟩, ⟨⟨[], [], 1, 1, 0⟩, ["old.png"]⟩) := by
  have h := problemas_missing_field_rejected ⟨⟨[], [], 1, 1, 0⟩, ["old.png"]⟩ ⟨⟨[], [], 1, 1, 0⟩, []⟩
    ⟨some 1, some "Ana", some "a@b.c"⟩
    ⟨.str "buraco", .str "desc", .str "2025-01-01", .undef, .str "2.0", .str "via",
     some ⟨"image/png", 100, "bytes"⟩⟩ "123-456.png" (fun _ => .ok "url")
    rfl rfl (by decide) (by decide)
  exact h.1

/-- C6: a request to `POST /problemas` with no valid session is answered
401 by the auth guard, which runs before the upload middleware and the
handler, so the state is returned untouched: no row inserted, no file on
disk, nothing on the remote host — in both deployment variants. -/
theorem problemas_unauthenticated_rejected (st : DiskState) (stc : CloudState) (s : Session)
    (req : ProblemaReq) (fname : String) (upl : UFile → Except String String)
    (hauth : s.authed = false) :
    postProblemasDisk st s req fname =
      (⟨401, jsonMsg false "Não autorizado. Faça login primeiro."⟩, st) ∧
    postProblemasCloud upl stc s req =
      (⟨401, jsonMsg false "Não autorizado. Faça login primeiro."⟩, stc) := by
  constructor
  · simp [postProblemasDisk, hauth]
  · simp [postProblemasCloud, hauth]

/-- Concrete instance of C6: a fully valid submission with a photo but an
empty session. -/
theorem problemas_unauthenticated_rejected_witness :
    postProblemasDisk ⟨⟨[], [], 1, 1, 0⟩, []⟩ ⟨none, none, none⟩
        ⟨.str "buraco", .str "desc", .str "2025-01-01", .str "1.0", .str "2.0", .str "via",
         some ⟨"image/png", 100, "bytes"⟩⟩ "123.png" =
      (⟨401, jsonMsg false "Não autorizado. Faça login primeiro."⟩, ⟨⟨[], [], 1, 1, 0⟩, []⟩) := by
  have h := problemas_unauthenticated_rejected ⟨⟨[], [], 1, 1, 0⟩, []⟩ ⟨⟨[], [], 1, 1, 0⟩, []⟩
    ⟨none, none, none⟩
    ⟨.str "buraco", .str "desc", .str "2025-01-01", .str "1.0", .str "2.0", .str "via",
     some ⟨"image/png", 100, "bytes"⟩⟩ "123.png" (fun _ => .ok "url") rfl
  exact h.1

/-- C7: the part_001 upload gate accepts a submitted photo exactly when its
MIME type starts with `image/` and its size is at most 5MB; a non-image
photo makes the request fail 500 through the generic error middleware, an
oversized image fails 400 with the LIMIT_FILE_SIZE message, and in both
cases the state is unchanged — nothing is persisted. -/
theorem problemas_photo_guard (upl : UFile → Except String String) (st : CloudState)
    (s : Session) (req : ProblemaReq) (f : UFile)
    (hfile : req.file = some f) (hauth : s.authed = true) :
    (multerCheck req.file = none ↔
      (strStartsWith f.mimetype "image/" = true ∧ f.size ≤ 5 * 1024 * 1024)) ∧
    (strStartsWith f.mimetype "image/" = false →
      postProblemasCloud upl st s req =
        (⟨500, jsonErr "Erro interno no servidor" "Apenas arquivos de imagem são permitidos!"⟩,
         st)) ∧
    (strStartsWith f.mimetype "image/" = true → 5 * 1024 * 1024 < f.size →
      postProblemasCloud upl st s req =
        (⟨400, jsonMsg false "A imagem deve ter no máximo 5MB"⟩, st)) := by
  refine ⟨?_, ?_, ?_⟩
  · rw [hfile]
    cases hb : strStartsWith f.mimetype "image/" with
    | false => simp [multerCheck, hb]
    | true =>
      constructor
      · intro hnone
        refine ⟨rfl, ?_⟩
        by_contra hgt
        have hgt' : f.size > 5 * 1024 * 1024 := Nat.lt_of_not_le hgt
        simp [multerCheck, hb, hgt'] at hnone
      · rintro ⟨-, hle⟩
        have hng : ¬ (f.size > 5 * 1024 * 1024) := Nat.not_lt.mpr hle
        simp [multerCheck, hb, hng]
  · intro hb
    have hmc : multerCheck req.file = some .notImage := by
      rw [hfile]
      simp [multerCheck, hb]
    simp [postProblemasCloud, hauth, hmc, multerErrResp]
  · intro hb hs
    have hmc : multerCheck req.file = some .tooLarge := by
      rw [hfile]
      simp [multerCheck, hb, hs]
    simp [postProblemasCloud, hauth, hmc, multerErrResp]

/-- Concrete instance of C7: a PDF attachment is turned away with the 500
error body and nothing is stored. -/
theorem problemas_photo_guard_witness :
    postProblemasCloud (fun _ => .ok "url") ⟨⟨[], [], 1, 1, 0⟩, []⟩
        ⟨some 1, some "Ana", some "a@b.c"⟩
        ⟨.str "buraco", .str "desc", .str "2025-01-01", .str "1.0", .str "2.0", .str "via",
         some ⟨"application/pdf", 100, "bytes"⟩⟩ =
      (⟨500, jsonErr "Erro interno no servidor" "Apenas arquivos de imagem são permitidos!"⟩,
       ⟨⟨[], [], 1, 1, 0⟩, []⟩) := by
  have h := problemas_photo_guard (fun _ => .ok "url") ⟨⟨[], [], 1, 1, 0⟩, []⟩
    ⟨some 1, some "Ana", some "a@b.c"⟩
    ⟨.str "buraco", .str "desc", .str "2025-01-01", .str "1.0", .str "2.0", .str "via",
     some ⟨"application/pdf", 100, "bytes"⟩⟩ ⟨"application/pdf", 100, "bytes"⟩ rfl rfl
  exact h.2.1 (by decide)

/-- C8: a photo-removal request for a report id that is not in the store is
answered 404 and mutates nothing: the database and the remote host are
returned unchanged, and no destroy call is issued against the image host. -/
theorem delete_foto_not_found (st : CloudState) (s : Session) (pid : Nat)
    (hauth : s.authed = true)
    (hmissing : ∀ p ∈ st.db.problemas, p.id ≠ pid) :
    deleteProblemaFoto st s pid = (⟨404, jsonMsg false "Problema não encontrado"⟩, st, []) := by
  have hfind : st.db.problemas.find? (fun p => p.id == pid) = none := by
    rw [List.find?_eq_none]
    intro p hp
    simp [hmissing p hp]
  simp [deleteProblemaFoto, hauth, hfind]

/-- Concrete instance of C8: deleting the photo of report 2 when only
report 1 exists. -/
theorem delete_foto_not_found_witness :
    deleteProblemaFoto
        ⟨⟨[], [⟨1, "buraco", "d", "2025-01-01", "1.0", "2.0", "via",
               some "https://res.cloudinary.com/x/ponto-urbano/abc.png", some 1, 0⟩], 1, 2, 1⟩,
         ["https://res.cloudinary.com/x/ponto-urbano/abc.png"]⟩
        ⟨some 1, some "Ana", some "a@b.c"⟩ 2 =
      (⟨404, jsonMsg false "Problema não encontrado"⟩,
       ⟨⟨[], [⟨1, "buraco", "d", "2025-01-01", "1.0", "2.0", "via",
              some "https://res.cloudinary.com/x/ponto-urbano/abc.png", some 1, 0⟩], 1, 2, 1⟩,
        ["https://res.cloudinary.com/x/ponto-urbano/abc.png"]⟩, []) := by
  apply delete_foto_not_found
  · rfl
  · decide

theorem sqlParam_none_of_nullish {v : JVal} (h : v.isNullish = true) : v.sqlParam = none := by
  cases v <;> simp_all [JVal.isNullish, JVal.sqlParam]

theorem updPerfilRow_id (uid : Nat) (nomeP fotoP : Option String) (sf : Bool) (u : UsuarioRow) :
    (updPerfilRow uid nomeP fotoP sf u).id = u.id := by
  unfold updPerfilRow
  split <;> rfl

theorem updPerfilRow_nome_of_match (uid : Nat) (nm : String) (fotoP : Option String) (sf : Bool)
    (u : UsuarioRow) (h : (u.id == uid) = true) :
    (updPerfilRow uid (some nm) fotoP sf u).nome = nm := by
  simp [updPerfilRow, h]

/-- One-user store used in the profile-update analyses. -/
def stPerfil : CloudState :=
  ⟨⟨[⟨1, "Ana", "ana@mail.com", bcryptHash "segredo" 10, none, 0⟩], [], 2, 1, 1⟩, []⟩

/-- The session of that user. -/
def sPerfil : Session := ⟨some 1, some "Ana", some "ana@mail.com"⟩

/-- A Cloudinary service that accepts every upload. -/
def uplPerfil : UFile → Except String String :=
  fun _ => .ok "https://res.cloudinary.com/demo/ponto-urbano-perfil/nova.png"

/-- C9 counterexample: an authenticated `PUT /perfil` that supplies only a
new photo and omits the name does not perform a partial update.  The
handler always includes `nome` in the SET clause, node-postgres sends the
absent field as SQL NULL, and the NOT NULL constraint makes the UPDATE
throw: the response is 500 and the stored row keeps its old photo — the
supplied field is not updated, against the claim. -/
theorem perfil_omitted_name_counterexample :
    (putPerfil uplPerfil stPerfil sPerfil ⟨.undef, some ⟨"image/png", 100, "bytes"⟩⟩).1.status
        = 500 ∧
    (putPerfil uplPerfil stPerfil sPerfil ⟨.undef, some ⟨"image/png", 100, "bytes"⟩⟩).2.1.db
        = stPerfil.db := by
  constructor
  · rfl
  · rfl

/-- C9 amended: for an authenticated profile update whose photo step
succeeded (or had no photo), (i) when the display name is omitted and the
session's user exists in the store, the UPDATE hits the NOT NULL
constraint on nome: the response is 500 and the user table is completely
unchanged — the name is indeed left unchanged, but a supplied photo is not
applied either; (ii) when a name is supplied, the request succeeds with
200, the session's cached name equals the supplied name, and the stored
row carries it. -/
theorem perfil_update_amended (upl : UFile → Except String String) (st : CloudState)
    (s : Session) (req : PerfilReq) (uid : Nat) (fopt : Option String) (remote1 : List String)
    (hauth : s.authed = true) (huid : s.userId = some uid)
    (hex : st.db.usuarios.any (fun u => u.id == uid) = true)
    (hmulter : multerCheck req.file = none)
    (hstep : fotoStep upl req.file st.remote = .ok (fopt, remote1)) :
    (req.nome.isNullish = true →
      (putPerfil upl st s req).1.status = 500 ∧
      (putPerfil upl st s req).2.1.db = st.db) ∧
    (∀ nm, req.nome = .str nm →
      (putPerfil upl st s req).1.status = 200 ∧
      (putPerfil upl st s req).2.2.userName = some nm ∧
      ∀ w ∈ (putPerfil upl st s req).2.1.db.usuarios, w.id = uid → w.nome = nm) := by
  have hred : putPerfil upl st s req =
      (match updatePerfilRows st.db uid req.nome.sqlParam fopt (!((fopt.getD "") == "")) with
       | .error e => (⟨500, jsonErr "Erro ao atualizar perfil" e⟩, ⟨st.db, remote1⟩, s)
       | .ok (db1, rows) =>
         match rows.head? with
         | none =>
           (⟨500, jsonErr "Erro ao atualizar perfil" "Cannot read properties of undefined"⟩,
            ⟨db1, remote1⟩, s)
         | some u =>
           (⟨200, Json.obj [("success", .bool true),
                            ("message", .str "Perfil atualizado com sucesso"),
                            ("user", Json.obj [("id", .num (Int.ofNat u.id)),
                                               ("nome", .str u.nome),
                                               ("email", .str u.email),
                                               ("foto_perfil", jsonOfOptStr u.foto_perfil)])]⟩,
            ⟨db1, remote1⟩, ⟨s.userId, some u.nome, s.userEmail⟩)) := by
    unfold putPerfil
    rw [hauth, hmulter, huid, hstep]
    rfl
  refine ⟨?_, ?_⟩
  · intro hnull
    have hsql : req.nome.sqlParam = none := sqlParam_none_of_nullish hnull
    have herr : updatePerfilRows st.db uid req.nome.sqlParam fopt (!((fopt.getD "") == "")) =
        .error "null value in column nome violates not-null constraint" := by
      unfold updatePerfilRows
      rw [hsql, hex]
      rfl
    rw [hred, herr]
    exact ⟨rfl, rfl⟩
  · intro nm hnm
    have hsql : req.nome.sqlParam = some nm := by rw [hnm]; rfl
    have hok : updatePerfilRows st.db uid req.nome.sqlParam fopt (!((fopt.getD "") == "")) =
        .ok (⟨st.db.usuarios.map (updPerfilRow uid (some nm) fopt (!((fopt.getD "") == ""))),
              st.db.problemas, st.db.nextUsuarioId, st.db.nextProblemaId, st.db.clock⟩,
             (st.db.usuarios.map
                 (updPerfilRow uid (some nm) fopt (!((fopt.getD "") == "")))).filter
               (fun u => u.id == uid)) := by
      unfold updatePerfilRows
      rw [hsql]
      simp
    have hne : (st.db.usuarios.map
        (updPerfilRow uid (some nm) fopt (!((fopt.getD "") == "")))).filter
          (fun u => u.id == uid) ≠ [] := by
      obtain ⟨u0, hu0, hid0⟩ := List.any_eq_true.mp hex
      apply List.ne_nil_of_mem
        (a := updPerfilRow uid (some nm) fopt (!((fopt.getD "") == "")) u0)
      apply List.mem_filter.mpr
      refine ⟨List.mem_map.mpr ⟨u0, hu0, rfl⟩, ?_⟩
      rw [updPerfilRow_id]
      exact hid0
    cases hh : ((st.db.usuarios.map
        (updPerfilRow uid (some nm) fopt (!((fopt.getD "") == "")))).filter
          (fun u => u.id == uid)).head? with
    | none => exact absurd (List.head?_eq_none_iff.mp hh) hne
    | some u =>
      have humem : u ∈ (st.db.usuarios.map
          (updPerfilRow uid (some nm) fopt (!((fopt.getD "") == "")))).filter
            (fun u => u.id == uid) :=
        List.mem_of_mem_head? hh
      have hid : (u.id == uid) = true := (List.mem_filter.mp humem).2
      have hnome : u.nome = nm := by
        obtain ⟨v, hv, hveq⟩ := List.mem_map.mp (List.mem_filter.mp humem).1
        subst hveq
        have hvid : (v.id == uid) = true := by
          rwa [updPerfilRow_id] at hid
        exact updPerfilRow_nome_of_match uid nm fopt _ v hvid
      refine ⟨?_, ?_, ?_⟩
      · rw [hred, hok]
        simp [hh]
      · rw [hred, hok]
        simp [hh, hnome]
      · intro w hw hwid
        rw [hred, hok] at hw
        simp only [hh] at hw
        obtain ⟨v, hv, hveq⟩ := List.mem_map.mp hw
        have hvid : (v.id == uid) = true := by
          have hwv : w.id = v.id := by rw [← hveq, updPerfilRow_id]
          simp [← hwv, hwid]
        rw [← hveq]
        exact updPerfilRow_nome_of_match uid nm fopt _ v hvid

/-- Concrete instance of the amended C9: supplying the name "Bia" updates
the row and the session's cached name together. -/
theorem perfil_update_amended_witness :
    (putPerfil uplPerfil stPerfil sPerfil ⟨.str "Bia", none⟩).2.2.userName = some "Bia" := by
  have h := perfil_update_amended uplPerfil stPerfil sPerfil ⟨.str "Bia", none⟩ 1 none []
    rfl rfl (by decide) rfl rfl
  exact (h.2 "Bia" rfl).2.1

/-- C10: the required-field validation of report submission is asymmetric
at the public interface: empty-string latitude and longitude values pass
the `== null` check — the request is not rejected by validation but
forwarded to the INSERT with the empty strings as parameters, where the
NUMERIC columns reject them (500 database error, distinct from the 400
ValidationError, no row created) — whereas an empty-string tipo,
descricao, data or categoria is falsy and the request is rejected 400 by
validation, before any insert, with the state unchanged. -/
theorem problema_validation_asymmetry :
    (∀ (st : DiskState) (s : Session) (req : ProblemaReq) (fname : String),
      s.authed = true → req.file = none →
      req.tipo.truthy = true → req.descricao.truthy = true → req.data.truthy = true →
      req.categoria.truthy = true →
      req.latitude = .str "" → req.longitude = .str "" →
      problemaMissing req = false ∧
      insertProblema st.db req none none = .error "invalid input syntax for type numeric" ∧
      postProblemasDisk st s req fname =
        (⟨500, jsonErr "Erro ao salvar problema" "invalid input syntax for type numeric"⟩,
         st)) ∧
    (∀ (st : DiskState) (s : Session) (req : ProblemaReq) (fname : String),
      s.authed = true → req.file = none →
      (req.tipo = .str "" ∨ req.descricao = .str "" ∨ req.data = .str "" ∨
       req.categoria = .str "") →
      postProblemasDisk st s req fname =
        (⟨400, jsonMsg false "Todos os campos são obrigatórios"⟩, st)) := by
  constructor
  · intro st s req fname hauth hfile ht hd hdt hc hlat hlon
    have hm : problemaMissing req = false := by
      unfold problemaMissing
      rw [ht, hd, hdt, hc, hlat, hlon]
      rfl
    have hins : insertProblema st.db req none none =
        .error "invalid input syntax for type numeric" := by
      unfold insertProblema
      rw [hlat]
      rfl
    refine ⟨hm, hins, ?_⟩
    simp [postProblemasDisk, hauth, hfile, hm, hins]
  · intro st s req fname hauth hfile hemp
    have hm : problemaMissing req = true := by
      unfold problemaMissing
      rcases hemp with h | h | h | h <;> rw [h] <;> simp [JVal.truthy]
    simp [postProblemasDisk, hauth, hfile, hm]

/-- Concrete instance of C10: a submission with empty-string coordinates
gets past validation and fails only at the INSERT, with the 500 database
error and no row. -/
theorem problema_validation_asymmetry_witness :
    postProblemasDisk ⟨⟨[], [], 1, 1, 0⟩, []⟩ ⟨some 1, some "Ana", some "a@b.c"⟩
        ⟨.str "buraco", .str "desc", .str "2025-01-01", .str "", .str "", .str "via", none⟩
        "x.png" =
      (⟨500, jsonErr "Erro ao salvar problema" "invalid input syntax for type numeric"⟩,
       ⟨⟨[], [], 1, 1, 0⟩, []⟩) := by
  have h := problema_validation_asymmetry
  exact (h.1 ⟨⟨[], [], 1, 1, 0⟩, []⟩ ⟨some 1, some "Ana", some "a@b.c"⟩
    ⟨.str "buraco", .str "desc", .str "2025-01-01", .str "", .str "", .str "via", none⟩
    "x.png" rfl rfl rfl rfl rfl rfl rfl rfl).2.2

end PontoUrbano
